import Mathlib

/-!
Verification of the FastMCP session request-dispatch pipeline.

The definitions below are a shallow embedding of `src/FastMCP.ts`:
the tools/call handler (lookup, schema validation, execution, result
normalization, error envelopes), the resources/read handler, the
prompts/get handler, the multi-session connect/disconnect callbacks of
`FastMCP.start`, and the handshake loop of `FastMCPSession.connect`.
Side-effecting context facilities (progress notifications, logging) are
elided: they only emit notifications and do not influence any result
studied here.
-/

namespace FastMCP

/-- Error codes from the MCP SDK `ErrorCode` enumeration. -/
def methodNotFound : Int := -32601

/-- JSON-RPC invalid-request code, thrown by the tool argument check. -/
def invalidRequest : Int := -32600

/-- JSON-RPC invalid-params code. -/
def invalidParams : Int := -32602

/-- JSON-RPC internal-error code. -/
def internalError : Int := -32603

/-- A protocol-level error (`McpError`): a code plus a human-readable message. -/
structure McpError where
  code : Int
  message : String
deriving DecidableEq

/-- Validated content: the tagged union behind `ContentZodSchema`. -/
inductive Content where
  | text (text : String)
  | image (data : String) (mimeType : String)
deriving DecidableEq

/-- A validated tool result (`ContentResult`): a content list and an
optional `isError` flag. `none` models an absent `isError` field. -/
structure ContentResult where
  content : List Content
  isError : Option Bool
deriving DecidableEq

/-- A raw content object as a tool may return it, before validation.
Optional fields model presence/absence of the JSON keys; `extraFields`
lists any unexpected keys (rejected by the `.strict()` schemas). -/
structure ContentObject where
  type : String
  text : Option String := none
  data : Option String := none
  mimeType : Option String := none
  extraFields : List String := []
deriving DecidableEq

/-- One character of the base64 alphabet (zod `z.string().base64()`). -/
def isBase64Char (c : Char) : Bool :=
  c.isAlphanum || c == '+' || c == '/'

/-- Whether a string is valid base64: length a multiple of four,
alphabet characters followed by at most two padding characters. -/
def isBase64 (s : String) : Bool :=
  let cs := s.data
  let core := cs.takeWhile isBase64Char
  let pad := cs.drop core.length
  cs.length % 4 == 0 && pad.length ≤ 2 && pad.all (fun c => c == '=')

/-- Strict validation of one content object, as `ContentZodSchema`
(a discriminated union of the strict text and image schemas) performs it. -/
def validateContent (o : ContentObject) : Except String Content :=
  if o.type == "text" then
    match o.text with
    | some t =>
      if o.data.isNone && o.mimeType.isNone && o.extraFields.isEmpty then
        .ok (.text t)
      else .error "unrecognized keys in text content"
    | none => .error "text content requires a text field"
  else if o.type == "image" then
    match o.data, o.mimeType with
    | some d, some m =>
      if isBase64 d then
        if o.text.isNone && o.extraFields.isEmpty then
          .ok (.image d m)
        else .error "unrecognized keys in image content"
      else .error "invalid base64 image data"
    | _, _ => .error "image content requires data and mimeType"
  else .error "invalid discriminator value"

/-- Validation of a content list, failing on the first invalid entry. -/
def validateContents : List ContentObject → Except String (List Content)
  | [] => .ok []
  | o :: rest =>
    match validateContent o with
    | .error e => .error e
    | .ok c =>
      match validateContents rest with
      | .error e => .error e
      | .ok cs => .ok (c :: cs)

/-- Strict validation of a whole result object, as
`ContentResultZodSchema.parse` performs it: no unexpected keys, every
content entry valid. -/
def parseContentResult (content : List ContentObject) (isError : Option Bool)
    (extraFields : List String) : Except String ContentResult :=
  if extraFields.isEmpty then
    (validateContents content).map (fun cs => { content := cs, isError := isError })
  else .error "unrecognized keys in content result"

/-- The raw content object `\x7btype:"text", text:s\x7d` built by the
string branch of the tools/call handler. -/
def textObject (s : String) : ContentObject :=
  { type := "text", text := some s }

/-- What a tool `execute` may resolve to: a plain string, a single
content object (discriminated by the presence of a `type` key), or an
already-shaped result object. -/
inductive ToolReturn where
  | str (s : String)
  | obj (o : ContentObject)
  | shaped (content : List ContentObject) (isError : Option Bool)
      (extraFields : List String)
deriving DecidableEq

/-- Result normalization from the tools/call handler: a plain string is
wrapped as one text content, a single content object is wrapped in a
one-element array, and anything else is parsed as a result object as-is. -/
def normalizeResult : ToolReturn → Except String ContentResult
  | .str s => parseContentResult [textObject s] none []
  | .obj o => parseContentResult [o] none []
  | .shaped content isError extraFields =>
      parseContentResult content isError extraFields

/-- An argument value supplied by the client in `request.params.arguments`. -/
inductive ArgValue where
  | num (n : Int)
  | str (s : String)
deriving DecidableEq

/-- Client-supplied arguments: an association list of named values. -/
abbrev ClientArgs := List (String × ArgValue)

/-- Outcome of awaiting `tool.execute`: a resolved value, a thrown
`UserError` carrying its message, or any other thrown error carrying its
string rendering (what the interpolation `Error: ...` appends). -/
inductive ExecOutcome where
  | ret (value : ToolReturn)
  | userError (message : String)
  | otherError (message : String)
deriving DecidableEq

/-- A registered tool: unique name, optional parameter schema modelled
as its `safeParse` function (`none` result = validation failure), and the
`execute` behaviour as a function of the parsed arguments (`none` models
the `undefined` passed when no schema is declared). -/
structure Tool where
  name : String
  parameters : Option (ClientArgs → Option ClientArgs)
  execute : Option ClientArgs → ExecOutcome

/-- The error envelope `\x7bcontent:[\x7btype:"text", text\x7d], isError:true\x7d`. -/
def envelopeError (text : String) : ContentResult :=
  { content := [.text text], isError := some true }

/-- The try/catch body of the tools/call handler after argument
resolution: run `execute`, normalize the result, and convert anything
thrown into a successful envelope with `isError:true`. -/
def runExecute (tool : Tool) (args : Option ClientArgs) :
    Except McpError ContentResult :=
  match tool.execute args with
  | .ret value =>
    match normalizeResult value with
    | .ok result => .ok result
    | .error e => .ok (envelopeError ("Error: " ++ e))
  | .userError m => .ok { content := [.text m], isError := some true }
  | .otherError m => .ok (envelopeError ("Error: " ++ m))

/-- Argument resolution: `args` starts as `undefined` (`none`); with a
declared schema, `safeParse` either fails (`none` overall) or supplies
the parsed data. -/
def resolveArgs (tool : Tool) (args : ClientArgs) : Option (Option ClientArgs) :=
  match tool.parameters with
  | none => some none
  | some schema => (schema args).map some

/-- The tools/call request handler: exact-name lookup, argument
validation, then execution with the catch-all envelope conversion. -/
def callTool (tools : List Tool) (name : String) (args : ClientArgs) :
    Except McpError ContentResult :=
  match tools.find? (fun t => t.name == name) with
  | none => .error ⟨methodNotFound, "Unknown tool: " ++ name⟩
  | some tool =>
    match resolveArgs tool args with
    | none => .error ⟨invalidRequest, "Invalid " ++ name ++ " arguments"⟩
    | some parsedArgs => runExecute tool parsedArgs

/-- One payload produced by a resource loader: `\x7btext\x7d` or `\x7bblob\x7d`. -/
inductive ResourcePayload where
  | text (t : String)
  | blob (b : String)
deriving DecidableEq

/-- What a resource loader resolves to: a single payload, or (as the
test suite exercises) an ordered list of payloads. -/
inductive LoadResult where
  | single (p : ResourcePayload)
  | list (ps : List ResourcePayload)
deriving DecidableEq

/-- A registered static resource; `load` is the outcome of awaiting its
loader (an error models a thrown exception). -/
structure Resource where
  uri : String
  name : String
  mimeType : Option String
  load : Except String LoadResult

/-- One entry of a resources/read `contents` array, with the fields the
handlers may stamp on it. `none` models an absent JSON key. -/
structure ContentEntry where
  uri : String
  name : Option String
  mimeType : Option String
  text : Option String
  blob : Option String
deriving DecidableEq

/-- The object spread `\x7buri, mimeType, ...result\x7d` performed by the
resources/read handler. Spreading a single payload contributes its
`text` or `blob` key; spreading an array contributes only numeric index
keys, so neither `text` nor `blob` appears. No `name` key is written. -/
def spreadEntry (r : Resource) : LoadResult → ContentEntry
  | .single (.text t) =>
      { uri := r.uri, name := none, mimeType := r.mimeType,
        text := some t, blob := none }
  | .single (.blob b) =>
      { uri := r.uri, name := none, mimeType := r.mimeType,
        text := none, blob := some b }
  | .list _ =>
      { uri := r.uri, name := none, mimeType := r.mimeType,
        text := none, blob := none }

/-- The resources/read request handler as implemented: exact uri lookup,
loader errors mapped to `InternalError`, and a single spread entry. -/
def readResource (resources : List Resource) (uri : String) :
    Except McpError (List ContentEntry) :=
  match resources.find? (fun r => r.uri == uri) with
  | none => .error ⟨methodNotFound, "Unknown resource: " ++ uri⟩
  | some r =>
    match r.load with
    | .error e => .error ⟨internalError, "Error reading resource: " ++ e⟩
    | .ok result => .ok [spreadEntry r result]

/-- The opening-brace character of a uri-template field. -/
def lbrace : Char := Char.ofNat 123

/-- The closing-brace character of a uri-template field. -/
def rbrace : Char := Char.ofNat 125

/-- One segment of a parsed uri template: a literal run or a named field. -/
inductive TemplatePart where
  | lit (s : String)
  | field (v : String)
deriving DecidableEq

/-- Prepends a character to a part list, merging into a leading literal. -/
def consLit (c : Char) : List TemplatePart → List TemplatePart
  | TemplatePart.lit s :: parts => TemplatePart.lit (String.mk (c :: s.data)) :: parts
  | parts => TemplatePart.lit (String.mk [c]) :: parts

/-- Parses a character list of a uri template into literal and field
segments: a brace-delimited run becomes a field, everything else a
literal. Each step consumes at least one character, so the fuel of
`parsePartsAux` suffices. -/
def parsePartsGo : Nat → List Char → List TemplatePart
  | 0, _ => []
  | _, [] => []
  | fuel + 1, c :: rest =>
    if c = lbrace then
      let fieldChars := rest.takeWhile (fun d => d ≠ rbrace)
      TemplatePart.field (String.mk fieldChars) ::
        parsePartsGo fuel ((rest.drop fieldChars.length).drop 1)
    else
      consLit c (parsePartsGo fuel rest)

/-- Parses the character list of a uri template. -/
def parsePartsAux (cs : List Char) : List TemplatePart :=
  parsePartsGo cs.length cs

/-- Matches a parsed template against a uri, extracting field values; a
field takes the shortest run letting the remaining segments match. -/
def matchParts : List TemplatePart → List Char → Option (List (String × String))
  | [], [] => some []
  | [], _ :: _ => none
  | TemplatePart.lit s :: parts, cs =>
    if s.data.isPrefixOf cs then matchParts parts (cs.drop s.data.length)
    else none
  | TemplatePart.field v :: parts, cs =>
    (List.range (cs.length + 1)).findSome? (fun k =>
      (matchParts parts (cs.drop k)).map
        (fun fields => (v, String.mk (cs.take k)) :: fields))

/-- Attempts a uri template pattern against a uri, returning the
extracted fields on success. -/
def matchTemplate (t : String) (uri : String) : Option (List (String × String)) :=
  matchParts (parsePartsAux t.data) uri.data

/-- A registered resource template: a parameterized uri pattern and a
loader taking the extracted fields. -/
structure ResourceTemplate where
  uriTemplate : String
  name : String
  mimeType : Option String
  load : List (String × String) → Except String LoadResult

/-- The first template whose pattern matches the uri, with its fields. -/
def firstTemplateMatch (templates : List ResourceTemplate) (uri : String) :
    Option (ResourceTemplate × List (String × String)) :=
  templates.findSome? (fun tpl =>
    (matchTemplate tpl.uriTemplate uri).map (fun fields => (tpl, fields)))

/-- One content entry for one payload, stamped with the given uri, name
and mimeType. -/
def payloadEntry (uri : String) (name : String) (mimeType : Option String) :
    ResourcePayload → ContentEntry
  | .text t => { uri := uri, name := some name, mimeType := mimeType,
                 text := some t, blob := none }
  | .blob b => { uri := uri, name := some name, mimeType := mimeType,
                 text := none, blob := some b }

/-- One content entry per payload of a loader result. -/
def payloadEntries (uri : String) (name : String) (mimeType : Option String) :
    LoadResult → List ContentEntry
  | .single p => [payloadEntry uri name mimeType p]
  | .list ps => ps.map (payloadEntry uri name mimeType)

/-- Modelled from the spec: the resources/read dispatch including
resource templates. `addResourceTemplate` and the template branch of the
read handler are exercised by the repository test suite but absent from
the source snapshot, so this definition follows the spec text: exact
match against static resources first; if none, attempt every resource
template's pattern against the uri and, on the first successful field
extraction, invoke that template's loader with the extracted fields; no
match is `MethodNotFound`; a loader result may be a single payload or an
ordered list, each becoming one content entry carrying `uri/name/mimeType`
plus its own `text` or `blob`. -/
def readResourceSpec (resources : List Resource)
    (templates : List ResourceTemplate) (uri : String) :
    Except McpError (List ContentEntry) :=
  match resources.find? (fun r => r.uri == uri) with
  | some r =>
    match r.load with
    | .error e => .error ⟨internalError, "Error reading resource: " ++ e⟩
    | .ok result => .ok (payloadEntries uri r.name r.mimeType result)
  | none =>
    match firstTemplateMatch templates uri with
    | some (tpl, fields) =>
      match tpl.load fields with
      | .error e => .error ⟨internalError, "Error reading resource: " ++ e⟩
      | .ok result => .ok (payloadEntries uri tpl.name tpl.mimeType result)
    | none => .error ⟨methodNotFound, "Unknown resource: " ++ uri⟩

/-- One prompt argument descriptor; an absent `required` key behaves as
`false` in the handler's check, so it is modelled as a plain Bool. -/
structure PromptArgDesc where
  name : String
  required : Bool
deriving DecidableEq

/-- A registered prompt; `load` takes the client arguments object
(`none` models an absent `arguments` param) and may throw. -/
structure Prompt where
  name : String
  description : Option String
  arguments : Option (List PromptArgDesc)
  load : Option (List (String × String)) → Except String String

/-- Whether the client arguments object exists and contains the key. -/
def hasKey (args : Option (List (String × String))) (k : String) : Bool :=
  match args with
  | none => false
  | some l => (l.lookup k).isSome

/-- The required-argument loop of the prompts/get handler: the name of
the first descriptor, in order, that is required but absent. -/
def missingRequired (args : Option (List (String × String))) :
    List PromptArgDesc → Option String
  | [] => none
  | a :: rest =>
    if a.required && !(hasKey args a.name) then some a.name
    else missingRequired args rest

/-- One message of a prompts/get result; the content is always
`\x7btype:"text", text\x7d`, so only role and text are modelled. -/
structure PromptMessage where
  role : String
  text : String
deriving DecidableEq

/-- A prompts/get result: optional description and the message list. -/
structure GetPromptResult where
  description : Option String
  messages : List PromptMessage
deriving DecidableEq

/-- The per-prompt part of the prompts/get handler: required-argument
check, loader invocation with `InternalError` on throw, then wrapping of
the returned string as a single user message. -/
def runPrompt (prompt : Prompt) (args : Option (List (String × String))) :
    Except McpError GetPromptResult :=
  match (match prompt.arguments with
         | some descs => missingRequired args descs
         | none => none) with
  | some missing =>
      .error ⟨invalidRequest, "Missing required argument: " ++ missing⟩
  | none =>
    match prompt.load args with
    | .error e => .error ⟨internalError, "Error loading prompt: " ++ e⟩
    | .ok result =>
        .ok { description := prompt.description,
              messages := [{ role := "user", text := result }] }

/-- The prompts/get request handler: exact-name lookup then `runPrompt`. -/
def getPrompt (prompts : List Prompt) (name : String)
    (args : Option (List (String × String))) : Except McpError GetPromptResult :=
  match prompts.find? (fun p => p.name == name) with
  | none => .error ⟨methodNotFound, "Unknown prompt: " ++ name⟩
  | some prompt => runPrompt prompt args

/-- An observable event emitted by the multi-session server. -/
inductive SrvEvent where
  | connect (sid : Nat)
  | disconnect (sid : Nat)
deriving DecidableEq

/-- The mutable state of the `FastMCP` server object: the active-session
list `#sessions` and the trace of emitted events. Sessions are
identified by opaque numbers. -/
structure ServerState where
  sessions : List Nat
  events : List SrvEvent
deriving DecidableEq

/-- The `onConnect` callback of the SSE server in `FastMCP.start`:
pushes the new session and emits one connect event. -/
def onConnect (sid : Nat) (st : ServerState) : ServerState :=
  { sessions := st.sessions ++ [sid], events := st.events ++ [.connect sid] }

/-- The `onClose` callback of the SSE server in `FastMCP.start`: emits
one disconnect event; the session list is not touched. -/
def onClose (sid : Nat) (st : ServerState) : ServerState :=
  { st with events := st.events ++ [.disconnect sid] }

/-- An opaque client-capabilities object. -/
abbrev ClientCaps := Nat

/-- The handshake loop of `FastMCPSession.connect`: up to `fuel`
attempts, each polling `caps` at the current attempt index; a failed
poll sleeps 100 ms. Returns the capabilities found and the list of
sleeps performed. -/
def pollLoop (caps : Nat → Option ClientCaps) :
    Nat → Nat → Option ClientCaps × List Nat
  | 0, _ => (none, [])
  | fuel + 1, attempt =>
    match caps attempt with
    | some c => (some c, [])
    | none =>
      let r := pollLoop caps fuel (attempt + 1)
      (r.1, 100 :: r.2)

/-- The `FastMCPSession.connect` establishment logic: throws when a
transport is already attached, else runs the 10-attempt handshake loop
and throws when no capabilities ever arrive. -/
def connectSession (alreadyConnected : Bool) (caps : Nat → Option ClientCaps) :
    Except String (ClientCaps × List Nat) :=
  if alreadyConnected then .error "Server is already connected"
  else
    match pollLoop caps 10 0 with
    | (some c, delays) => .ok (c, delays)
    | (none, _) => .error "Server did not connect"

/-- The schema of the `add` tool from the test suite: both `a` and `b`
must be numbers; zod's `safeParse` returns the data unchanged here. -/
def addSchema (args : ClientArgs) : Option ClientArgs :=
  match args.lookup "a", args.lookup "b" with
  | some (.num _), some (.num _) => some args
  | _, _ => none

/-- The execute function of the `add` tool: `String(args.a + args.b)`. -/
def addExecute : Option ClientArgs → ExecOutcome
  | some l =>
    match l.lookup "a", l.lookup "b" with
    | some (.num a), some (.num b) => .ret (.str (toString (a + b)))
    | _, _ => .otherError "TypeError: arguments unavailable"
  | none => .otherError "TypeError: arguments unavailable"

/-- The `add` tool registered throughout the test suite. -/
def addTool : Tool :=
  { name := "add", parameters := some addSchema, execute := addExecute }

/-- A schemaless tool that always throws `UserError("Something went wrong")`. -/
def boomTool : Tool :=
  { name := "boom", parameters := none,
    execute := fun _ => .userError "Something went wrong" }

/-- An image content object whose data is not valid base64. -/
def badImageObject : ContentObject :=
  { type := "image", data := some "???", mimeType := some "image/png" }

/-- A schemaless tool resolving successfully with an invalid content object. -/
def badImageTool : Tool :=
  { name := "bad-image", parameters := none,
    execute := fun _ => .ret (.obj badImageObject) }

/-- A schemaless tool whose return value reveals whether it received
arguments. -/
def probeTool : Tool :=
  { name := "probe", parameters := none,
    execute := fun args =>
      .ret (.str (match args with | none => "no-args" | some _ => "got-args")) }

/-- The static resource of the test suite whose loader returns a list
of two text payloads. -/
def appLogResource : Resource :=
  { uri := "file:///logs/app.log", name := "Application Logs",
    mimeType := some "text/plain",
    load := .ok (.list [.text "a", .text "b"]) }

/-- The resource template of the test suite. -/
def logTemplate : ResourceTemplate :=
  { uriTemplate := "file:///logs/\x7bname\x7d.log", name := "Application Logs",
    mimeType := some "text/plain",
    load := fun fields =>
      .ok (.single (.text ("Example log content for "
        ++ ((fields.lookup "name").getD "")))) }

/-- The prompt of the test suite, with one required argument `changes`. -/
def gitCommitPrompt : Prompt :=
  { name := "git-commit", description := some "Generate a Git commit message",
    arguments := some [{ name := "changes", required := true }],
    load := fun _ => .ok "Generate a commit message" }

theorem runExecute_not_error (tool : Tool) (args : Option ClientArgs)
    (e : McpError) : runExecute tool args ≠ .error e := by
  unfold runExecute
  rcases hx : tool.execute args with value | m | m <;> simp [hx]
  rcases hn : normalizeResult value with e2 | r <;> simp [hn]

theorem missingRequired_eq_find (args : Option (List (String × String)))
    (descs : List PromptArgDesc) :
    missingRequired args descs
      = (descs.find? (fun a => a.required && !(hasKey args a.name))).map
          PromptArgDesc.name := by
  induction descs with
  | nil => rfl
  | cons a rest ih =>
    by_cases h : (a.required && !(hasKey args a.name)) = true
    · simp [missingRequired, h, List.find?_cons_of_pos]
    · simp only [Bool.not_eq_true] at h
      simp [missingRequired, h, List.find?_cons_of_neg, ih]

theorem firstTemplateMatch_none_iff (templates : List ResourceTemplate)
    (uri : String) :
    firstTemplateMatch templates uri = none
      ↔ ∀ tpl ∈ templates, matchTemplate tpl.uriTemplate uri = none := by
  induction templates with
  | nil => simp [firstTemplateMatch]
  | cons t rest ih =>
    rcases hm : matchTemplate t.uriTemplate uri with _ | f
    · simp [firstTemplateMatch, List.findSome?_cons, hm, ih]
    · simp [firstTemplateMatch, List.findSome?_cons, hm]

theorem firstTemplateMatch_spec (templates : List ResourceTemplate)
    (uri : String) (tpl : ResourceTemplate) (fields : List (String × String)) :
    firstTemplateMatch templates uri = some (tpl, fields) →
    ∃ pre post, templates = pre ++ tpl :: post
      ∧ (∀ t ∈ pre, matchTemplate t.uriTemplate uri = none)
      ∧ matchTemplate tpl.uriTemplate uri = some fields := by
  induction templates with
  | nil => intro h; simp [firstTemplateMatch] at h
  | cons t rest ih =>
    intro h
    rcases hm : matchTemplate t.uriTemplate uri with _ | f
    · have h2 : firstTemplateMatch rest uri = some (tpl, fields) := by
        simpa [firstTemplateMatch, List.findSome?_cons, hm] using h
      obtain ⟨pre, post, hsplit, hpre, hmatch⟩ := ih h2
      refine ⟨t :: pre, post, by simp [hsplit], ?_, hmatch⟩
      intro t2 ht2
      rcases List.mem_cons.1 ht2 with h3 | h3
      · subst h3; exact hm
      · exact hpre t2 h3
    · have h2 : (t, f) = (tpl, fields) := by
        simpa [firstTemplateMatch, List.findSome?_cons, hm] using h
      obtain ⟨rfl, rfl⟩ := Prod.mk.injEq .. ▸ And.intro (congrArg Prod.fst h2) (congrArg Prod.snd h2)
      exact ⟨[], rest, rfl, by simp, hm⟩

theorem pollLoop_all_none (caps : Nat → Option ClientCaps) :
    ∀ fuel start, (∀ i, start ≤ i → i < start + fuel → caps i = none) →
    pollLoop caps fuel start = (none, List.replicate fuel 100) := by
  intro fuel
  induction fuel with
  | zero => intro start _; rfl
  | succ n ih =>
    intro start h
    have h0 : caps start = none := h start le_rfl (by omega)
    have hrec := ih (start + 1) (fun i h1 h2 => h i (by omega) (by omega))
    simp [pollLoop, h0, hrec, List.replicate_succ]

theorem pollLoop_first_success (caps : Nat → Option ClientCaps) :
    ∀ fuel start j c, start ≤ j → j < start + fuel → caps j = some c →
    (∀ i, start ≤ i → i < j → caps i = none) →
    pollLoop caps fuel start = (some c, List.replicate (j - start) 100) := by
  intro fuel
  induction fuel with
  | zero => intro start j c h1 h2 _ _; omega
  | succ n ih =>
    intro start j c hle hlt hj hnone
    by_cases hstart : j = start
    · subst hstart
      simp [pollLoop, hj]
    · have h0 : caps start = none := hnone start le_rfl (by omega)
      have hrec := ih (start + 1) j c (by omega) (by omega) hj
        (fun i hi1 hi2 => hnone i (by omega) hi2)
      have hsub : j - start = (j - (start + 1)) + 1 := by omega
      simp [pollLoop, h0, hrec, hsub, List.replicate_succ]

/-- C1: for every registered tool, any error thrown by its execute
function during tools/call is caught and converted into a successful
result envelope with `isError:true`: a `UserError` surfaces its message
verbatim, any other thrown error surfaces as `"Error: <message>"`, and
only lookup and validation failures ever produce protocol-level errors. -/
theorem c1_execute_errors_become_envelopes
    (tools : List Tool) (name : String) (args : ClientArgs) :
    (∀ tool parsedArgs,
      tools.find? (fun t => t.name == name) = some tool →
      resolveArgs tool args = some parsedArgs →
      (∀ m, tool.execute parsedArgs = .userError m →
        callTool tools name args =
          .ok { content := [.text m], isError := some true }) ∧
      (∀ m, tool.execute parsedArgs = .otherError m →
        callTool tools name args =
          .ok { content := [.text ("Error: " ++ m)], isError := some true }))
    ∧ (∀ e, callTool tools name args = .error e →
        (tools.find? (fun t => t.name == name) = none
          ∧ e = ⟨methodNotFound, "Unknown tool: " ++ name⟩)
        ∨ (∃ tool, tools.find? (fun t => t.name == name) = some tool
            ∧ resolveArgs tool args = none
            ∧ e = ⟨invalidRequest, "Invalid " ++ name ++ " arguments"⟩)) := by
  constructor
  · intro tool parsedArgs hfind hres
    constructor
    · intro m hexec
      simp [callTool, hfind, hres, runExecute, hexec]
    · intro m hexec
      simp [callTool, hfind, hres, runExecute, hexec, envelopeError]
  · intro e he
    rcases hfind : tools.find? (fun t => t.name == name) with _ | tool
    · simp [callTool, hfind] at he
      exact Or.inl ⟨hfind, he.symm⟩
    · rcases hres : resolveArgs tool args with _ | pa
      · simp [callTool, hfind, hres] at he
        exact Or.inr ⟨tool, hfind, hres, he.symm⟩
      · exfalso
        simp [callTool, hfind, hres] at he
        exact runExecute_not_error tool pa e he

/-- C1 witness: a tool throwing `UserError("Something went wrong")`
yields the envelope with that text and `isError:true`. -/
theorem c1_witness :
    callTool [boomTool] "boom" []
      = .ok { content := [.text "Something went wrong"], isError := some true } :=
  (((c1_execute_errors_become_envelopes [boomTool] "boom" []).1 boomTool none
    rfl rfl).1) "Something went wrong" rfl

/-- C2: contrary to the claim (and to the repository's own test, which
expects `InvalidParams` with message `"Invalid add parameters"`), calling
the `add` tool with a non-numeric argument produces the protocol error
code `InvalidRequest` with message `"Invalid add arguments"`; the execute
function is indeed never invoked (the result is independent of it). -/
theorem c2_schema_failure_uses_invalid_request :
    callTool [addTool] "add" [("a", .num 1), ("b", .str "invalid")]
      = .error ⟨invalidRequest, "Invalid add arguments"⟩
    ∧ invalidRequest ≠ invalidParams
    ∧ ∀ f, callTool [{ addTool with execute := f }] "add"
        [("a", .num 1), ("b", .str "invalid")]
        = .error ⟨invalidRequest, "Invalid add arguments"⟩ :=
  ⟨rfl, by decide, fun _ => rfl⟩

/-- C3: contrary to the claim (and to the repository's own test, which
expects one content entry per payload, each carrying the resource's
uri, name and mimeType), reading a static resource whose loader returned
the two payloads `[\x7btext:"a"\x7d, \x7btext:"b"\x7d]` yields exactly one
content entry, which carries no `name` key and, the spread of an array
contributing only index keys, neither `text` nor `blob`. -/
theorem c3_multi_payload_single_entry :
    readResource [appLogResource] "file:///logs/app.log"
      = .ok [{ uri := "file:///logs/app.log", name := none,
               mimeType := some "text/plain", text := none, blob := none }]
    ∧ (readResource [appLogResource] "file:///logs/app.log").map List.length
        = .ok 1 :=
  ⟨rfl, rfl⟩

/-- C4: in the spec-modelled resources/read dispatch, when no static
resource matches the uri, the first template whose pattern successfully
extracts fields has its loader invoked with those fields (all templates
before it having failed to match), a total mismatch yields
`MethodNotFound`, and the pattern `file:///logs/(name).log` matched
against `file:///logs/app.log` extracts `name = "app"`. -/
theorem c4_template_dispatch
    (resources : List Resource) (templates : List ResourceTemplate)
    (uri : String)
    (hstatic : resources.find? (fun r => r.uri == uri) = none) :
    (∀ tpl fields, firstTemplateMatch templates uri = some (tpl, fields) →
      readResourceSpec resources templates uri
        = (match tpl.load fields with
           | .error e => .error ⟨internalError, "Error reading resource: " ++ e⟩
           | .ok result => .ok (payloadEntries uri tpl.name tpl.mimeType result))
      ∧ ∃ pre post, templates = pre ++ tpl :: post
          ∧ (∀ t ∈ pre, matchTemplate t.uriTemplate uri = none)
          ∧ matchTemplate tpl.uriTemplate uri = some fields)
    ∧ ((∀ tpl ∈ templates, matchTemplate tpl.uriTemplate uri = none) →
        readResourceSpec resources templates uri
          = .error ⟨methodNotFound, "Unknown resource: " ++ uri⟩)
    ∧ matchTemplate "file:///logs/\x7bname\x7d.log" "file:///logs/app.log"
        = some [("name", "app")] := by
  refine ⟨?_, ?_, rfl⟩
  · intro tpl fields h
    exact ⟨by simp [readResourceSpec, hstatic, h],
           firstTemplateMatch_spec templates uri tpl fields h⟩
  · intro hall
    have hnone : firstTemplateMatch templates uri = none :=
      (firstTemplateMatch_none_iff templates uri).2 hall
    simp [readResourceSpec, hstatic, hnone]

/-- C4 witness: reading `file:///logs/app.log` against the test suite's
template invokes its loader with `name = "app"` and returns the entry
stamped with the template's name and mimeType. -/
theorem c4_witness :
    readResourceSpec [] [logTemplate] "file:///logs/app.log"
      = .ok [{ uri := "file:///logs/app.log", name := some "Application Logs",
               mimeType := some "text/plain",
               text := some "Example log content for app", blob := none }] :=
  (((c4_template_dispatch [] [logTemplate] "file:///logs/app.log" rfl).1
    logTemplate [("name", "app")] rfl).1).trans rfl

/-- C5: a successful tools/call result is normalized by exactly three
cases: a plain string becomes a single text content entry, a single
valid content object is wrapped into a one-element content array, and an
already-shaped result is validated and returned as-is; in particular the
`add` tool returning the string `"3"` yields
`\x7bcontent:[\x7btype:"text",text:"3"\x7d]\x7d`. -/
theorem c5_normalization_three_cases :
    (∀ s, normalizeResult (.str s)
      = .ok { content := [.text s], isError := none })
    ∧ (∀ o c, validateContent o = .ok c →
        normalizeResult (.obj o) = .ok { content := [c], isError := none })
    ∧ (∀ content isError extraFields r,
        parseContentResult content isError extraFields = .ok r →
        normalizeResult (.shaped content isError extraFields) = .ok r)
    ∧ callTool [addTool] "add" [("a", .num 1), ("b", .num 2)]
        = .ok { content := [.text "3"], isError := none } := by
  refine ⟨fun s => rfl, ?_, fun content isError extraFields r h => h, rfl⟩
  intro o c h
  simp [normalizeResult, parseContentResult, validateContents, h, Except.map]

/-- C5 witness: the three cases at concrete inputs. -/
theorem c5_witness :
    normalizeResult (.str "3") = .ok { content := [.text "3"], isError := none }
    ∧ normalizeResult (.obj (textObject "a"))
        = .ok { content := [.text "a"], isError := none }
    ∧ normalizeResult (.shaped [textObject "a", textObject "b"] none [])
        = .ok { content := [.text "a", .text "b"], isError := none } :=
  ⟨c5_normalization_three_cases.1 "3",
   c5_normalization_three_cases.2.1 (textObject "a") (.text "a") rfl,
   c5_normalization_three_cases.2.2.1 [textObject "a", textObject "b"] none []
     { content := [.text "a", .text "b"], isError := none } rfl⟩

/-- C6 counterexample: one connect followed by one disconnect leaves the
active-session list with one entry, not zero — the disconnect callback
emits its event but removes nothing. -/
theorem c6_disconnect_removes_nothing :
    (onClose 0 (onConnect 0 { sessions := [], events := [] })).sessions = [0]
    ∧ (onClose 0 (onConnect 0 { sessions := [], events := [] })).sessions.length
        ≠ 0
    ∧ (onClose 0 (onConnect 0 { sessions := [], events := [] })).events
        = [.connect 0, .disconnect 0] :=
  ⟨rfl, by decide, rfl⟩

/-- C6 amended: each successful connection appends exactly one session
and fires one connect event; each disconnection fires exactly one
disconnect event and leaves the active-session list unchanged. -/
theorem c6_session_list_transitions (sid : Nat) (st : ServerState) :
    (onConnect sid st).sessions = st.sessions ++ [sid]
    ∧ (onConnect sid st).events = st.events ++ [.connect sid]
    ∧ (onClose sid st).sessions = st.sessions
    ∧ (onClose sid st).events = st.events ++ [.disconnect sid] :=
  ⟨rfl, rfl, rfl, rfl⟩

/-- C7 counterexample: a prompts/get on the test suite's prompt without
its required `changes` argument fails with error code `InvalidRequest`
(-32600), not `InvalidParams` (-32602) as the claim states. -/
theorem c7_missing_argument_code :
    getPrompt [gitCommitPrompt] "git-commit" none
      = .error ⟨invalidRequest, "Missing required argument: changes"⟩
    ∧ invalidRequest ≠ invalidParams :=
  ⟨rfl, by decide⟩

/-- C7 amended: for every prompts/get on a registered prompt, every
argument descriptor marked required must be present in the supplied
args; if any is missing, the request fails with `InvalidRequest` whose
message names the first missing argument in descriptor order, and the
prompt's loader is never invoked (the result is independent of it). -/
theorem c7_missing_required_amended
    (prompts : List Prompt) (name : String)
    (args : Option (List (String × String)))
    (prompt : Prompt) (descs : List PromptArgDesc) (missing : String)
    (hfind : prompts.find? (fun p => p.name == name) = some prompt)
    (hdescs : prompt.arguments = some descs)
    (hmiss : missingRequired args descs = some missing) :
    getPrompt prompts name args
      = .error ⟨invalidRequest, "Missing required argument: " ++ missing⟩
    ∧ (∀ f, runPrompt { prompt with load := f } args
        = .error ⟨invalidRequest, "Missing required argument: " ++ missing⟩)
    ∧ missingRequired args descs
        = (descs.find? (fun a => a.required && !(hasKey args a.name))).map
            PromptArgDesc.name := by
  refine ⟨?_, ?_, missingRequired_eq_find args descs⟩
  · simp [getPrompt, hfind, runPrompt, hdescs, hmiss]
  · intro f
    simp [runPrompt, hdescs, hmiss]

/-- C7 witness: the amended statement at the test suite's prompt. -/
theorem c7_witness :
    getPrompt [gitCommitPrompt] "git-commit" none
      = .error ⟨invalidRequest, "Missing required argument: changes"⟩ :=
  (c7_missing_required_amended [gitCommitPrompt] "git-commit" none
    gitCommitPrompt [{ name := "changes", required := true }] "changes"
    rfl rfl rfl).1

/-- C8: connect throws when a transport is already attached; otherwise
it polls for client capabilities at most 10 times, sleeping 100 ms after
each failed poll, throws the fatal handshake error when none arrive in
those attempts, and returns the first capabilities found. -/
theorem c8_connect_handshake (caps : Nat → Option ClientCaps) :
    connectSession true caps = .error "Server is already connected"
    ∧ ((∀ i, i < 10 → caps i = none) →
        connectSession false caps = .error "Server did not connect"
        ∧ pollLoop caps 10 0 = (none, List.replicate 10 100))
    ∧ (∀ j c, j < 10 → caps j = some c → (∀ i, i < j → caps i = none) →
        connectSession false caps = .ok (c, List.replicate j 100)) := by
  refine ⟨rfl, ?_, ?_⟩
  · intro h
    have hp : pollLoop caps 10 0 = (none, List.replicate 10 100) :=
      pollLoop_all_none caps 10 0 (fun i _ h2 => h i (by omega))
    exact ⟨by simp [connectSession, hp], hp⟩
  · intro j c hj hc hnone
    have hp : pollLoop caps 10 0 = (some c, List.replicate j 100) := by
      have := pollLoop_first_success caps 10 0 j c (by omega) (by omega) hc
        (fun i _ h2 => hnone i h2)
      simpa using this
    simp [connectSession, hp]

/-- C8 witness: with no capabilities the handshake fails after ten
polls; with capabilities first available on the fourth poll the
handshake succeeds after three sleeps. -/
theorem c8_witness :
    connectSession false (fun _ => none) = .error "Server did not connect"
    ∧ connectSession false (fun i => if i == 3 then some 7 else none)
        = .ok (7, List.replicate 3 100) :=
  ⟨((c8_connect_handshake (fun _ => none)).2.1 (fun _ _ => rfl)).1,
   (c8_connect_handshake (fun i => if i == 3 then some 7 else none)).2.2 3 7
     (by omega) rfl (fun i hi => by interval_cases i <;> rfl)⟩

/-- C9: when a tool's execute resolves successfully but its value fails
the strict content-result validation, tools/call still returns a
successful envelope with `isError:true` through the same catch path as
an execution failure — never a protocol-level error. -/
theorem c9_invalid_result_envelope
    (tools : List Tool) (name : String) (args : ClientArgs)
    (tool : Tool) (parsedArgs : Option ClientArgs) (value : ToolReturn)
    (e : String)
    (hfind : tools.find? (fun t => t.name == name) = some tool)
    (hres : resolveArgs tool args = some parsedArgs)
    (hexec : tool.execute parsedArgs = .ret value)
    (hnorm : normalizeResult value = .error e) :
    callTool tools name args
      = .ok { content := [.text ("Error: " ++ e)], isError := some true } := by
  simp [callTool, hfind, hres, runExecute, hexec, hnorm, envelopeError]

/-- C9 witness: a tool resolving with an image content object whose data
is not base64 yields the error envelope, not a protocol error. -/
theorem c9_witness :
    callTool [badImageTool] "bad-image" []
      = .ok { content := [.text ("Error: " ++ "invalid base64 image data")],
              isError := some true } :=
  c9_invalid_result_envelope [badImageTool] "bad-image" [] badImageTool none
    (.obj badImageObject) "invalid base64 image data" rfl rfl rfl rfl

/-- C10: for a tool registered without a parameter schema, tools/call
performs no validation and discards the client-supplied arguments:
execute is invoked with `undefined` whatever the client sent. -/
theorem c10_no_schema_ignores_args
    (tools : List Tool) (name : String) (tool : Tool)
    (hfind : tools.find? (fun t => t.name == name) = some tool)
    (hparams : tool.parameters = none) (args : ClientArgs) :
    callTool tools name args = runExecute tool none := by
  simp [callTool, hfind, resolveArgs, hparams]

/-- C10 witness: a schemaless probe tool observes `undefined` arguments
even when the client supplies some. -/
theorem c10_witness :
    callTool [probeTool] "probe" [("a", .num 1)]
      = .ok { content := [.text "no-args"], isError := none } :=
  (c10_no_schema_ignores_args [probeTool] "probe" probeTool rfl rfl
    [("a", .num 1)]).trans rfl

end FastMCP
